import Mathlib

/-!
Shallow embedding of the news-bot aggregation and per-user correlation
layer of the repository (src/bot.py, src/full_webhook_bot.py,
src/simple_sync_webhook_bot.py, src/scheduler.py), together with proofs
of the spec's testable properties.

Timestamps coming from `datetime.now().isoformat()` are opaque strings in
the code; the embedding passes them as an explicit `now : String`
argument.  Wall-clock time used by the 30-minute TTL check is modelled as
minutes (`Nat`).
-/

namespace NewsBot

/-- The canonical news item shape built by `_fetch_news` / `get_news`
(dict with title, description, url, source, category, published_at,
timestamp). -/
structure Item where
  title : String
  description : String
  url : String
  source : String
  category : String
  publishedAt : String
  timestamp : String
deriving Repr, DecidableEq, Inhabited

/-- A raw article as returned by the provider (NewsAPI `articles` entry):
`title` / `description` / `url` may be missing (`None`) or empty, which
Python truthiness treats alike. -/
structure RawArticle where
  title : Option String
  description : Option String
  url : Option String
  sourceName : String
  publishedAt : String
deriving Repr, DecidableEq

/-- Result of one provider HTTP call: `err` models a raised
`requests.RequestException` (network/timeout/`raise_for_status`), `ok`
models a 200 response whose parsed `articles` list is the payload (a
response with `status != ok` or no articles is `ok []`). -/
inductive ProviderResult where
  | ok : List RawArticle → ProviderResult
  | err : ProviderResult
deriving Repr, DecidableEq

/-- Provider behaviour during one refresh attempt: the response to each
category-scoped query and to the single broad aggregate query. -/
structure Provider where
  categoryResp : String → ProviderResult
  aggregateResp : ProviderResult

def ProviderResult.isErr : ProviderResult → Bool
  | .err => true
  | .ok _ => false

def ProviderResult.articles : ProviderResult → List RawArticle
  | .err => []
  | .ok l => l

/-- The fixed ordered category list of `_fetch_news` in bot.py and
full_webhook_bot.py. -/
def fetchCategories : List String :=
  ["technology", "science", "business", "health", "sports"]

/-- `self.categories` mapping (API key → Russian label) shared by the
bots; lookup falls back to the key itself (`self.categories.get(category,
category)`). -/
def categoryLabel (c : String) : String :=
  if c = "technology" then "технологии"
  else if c = "science" then "наука"
  else if c = "business" then "бизнес"
  else if c = "health" then "здоровье"
  else if c = "sports" then "спорт"
  else if c = "entertainment" then "развлечения"
  else if c = "general" then "общие"
  else c

/-- Python truthiness of an optional string field (`article.get(k)`). -/
def truthy : Option String → Bool
  | none => false
  | some s => ¬ s.isEmpty

/-- The per-article acceptance check and mapping of `_fetch_news`:
title, description and url must be truthy and the url must not be the
sentinel `https://removed.com`; `description or 'Описание недоступно'`
keeps the (already truthy) description. -/
def normalize (a : RawArticle) (cat : String) (now : String) : Option Item :=
  if truthy a.title ∧ truthy a.description ∧ truthy a.url ∧
      a.url ≠ some "https://removed.com" then
    some { title := a.title.getD ""
           description := a.description.getD ""
           url := a.url.getD ""
           source := a.sourceName
           category := cat
           publishedAt := a.publishedAt
           timestamp := now }
  else
    none

/-- Items collected from one category response (inner `for article in
articles` loop of `_fetch_news`). -/
def collectCategory (cat : String) (arts : List RawArticle) (now : String) :
    List Item :=
  arts.filterMap (fun a => normalize a (categoryLabel cat) now)

/-- The aggregate-query merge loop of `_fetch_news`: an article is added
only when its title does not already occur in the accumulated list
(first occurrence wins, order preserved); after an append that reaches
15 items the loop breaks. -/
def mergeAgg (acc : List Item) (arts : List RawArticle) (now : String) :
    List Item :=
  match arts with
  | [] => acc
  | a :: rest =>
    match normalize a "общие" now with
    | none => mergeAgg acc rest now
    | some it =>
      if acc.any (fun e => e.title = it.title) then
        mergeAgg acc rest now
      else
        let acc' := acc ++ [it]
        if 15 ≤ acc'.length then acc' else mergeAgg acc' rest now

/-- `_fetch_news` of bot.py / full_webhook_bot.py.  `apiKeySet` models
`self.news_api_key` being configured and `test` is the file's
`_get_test_news()` batch.  A `RequestException` raised by any category
call aborts the whole `try` block and returns the test batch; the
aggregate query sits in its own inner `try` whose failure only skips the
merge.  An overall empty result also falls back to the test batch. -/
def fetchNews (apiKeySet : Bool) (p : Provider) (now : String)
    (test : List Item) : List Item :=
  if ¬ apiKeySet then test
  else if fetchCategories.any (fun c => (p.categoryResp c).isErr) then test
  else
    let base :=
      (fetchCategories.map
        (fun c => collectCategory c (p.categoryResp c).articles now)).flatten
    let news :=
      if base.length < 5 then
        match p.aggregateResp with
        | .err => base
        | .ok arts => mergeAgg base arts now
      else base
    if news.isEmpty then test else news

/-- `_get_test_news` of src/bot.py: the Russian-titled 6-item demo
batch. -/
def botTestNews (now : String) : List Item :=
  [ { title := "Новые технологии в области искусственного интеллекта"
      description := "Исследователи представили новую модель ИИ, способную решать сложные задачи машинного обучения."
      url := "https://example.com/ai-news"
      source := "TechNews"
      category := "технологии"
      publishedAt := now, timestamp := now },
    { title := "Открытие в области квантовой физики"
      description := "Ученые сделали важное открытие в области квантовых вычислений, которое может революционизировать криптографию."
      url := "https://example.com/quantum-news"
      source := "ScienceDaily"
      category := "наука"
      publishedAt := now, timestamp := now },
    { title := "Рост рынка криптовалют"
      description := "Аналитики прогнозируют значительный рост криптовалютного рынка в ближайшие месяцы."
      url := "https://example.com/crypto-news"
      source := "BusinessToday"
      category := "бизнес"
      publishedAt := now, timestamp := now },
    { title := "Разработка нового процессора"
      description := "Компания представила новый процессор с улучшенной производительностью и энергоэффективностью."
      url := "https://example.com/processor-news"
      source := "TechWorld"
      category := "технологии"
      publishedAt := now, timestamp := now },
    { title := "Прорыв в медицине"
      description := "Ученые разработали новый метод лечения, который показывает обнадеживающие результаты в клинических испытаниях."
      url := "https://example.com/medical-news"
      source := "MedicalNews"
      category := "наука"
      publishedAt := now, timestamp := now },
    { title := "Инвестиции в стартапы"
      description := "Венчурные фонды увеличивают инвестиции в технологические стартапы, особенно в области финтеха."
      url := "https://example.com/startup-news"
      source := "VentureBeat"
      category := "бизнес"
      publishedAt := now, timestamp := now } ]

/-- `_get_test_news` of src/full_webhook_bot.py: the 2-item demo batch. -/
def fullTestNews (now : String) : List Item :=
  [ { title := "Новые технологии в области искусственного интеллекта"
      description := "Исследователи представили новую модель ИИ, способную решать сложные задачи машинного обучения."
      url := "https://example.com/ai-news"
      source := "TechNews"
      category := "технологии"
      publishedAt := now, timestamp := now },
    { title := "Открытие в области квантовой физики"
      description := "Ученые сделали важное открытие в области квантовых вычислений, которое может революционизировать криптографию."
      url := "https://example.com/quantum-news"
      source := "ScienceDaily"
      category := "наука"
      publishedAt := now, timestamp := now } ]

/-- `get_test_news` of src/simple_sync_webhook_bot.py: its own 2-item
demo batch (second description is shorter than full_webhook_bot's). -/
def syncTestNews (now : String) : List Item :=
  [ { title := "Новые технологии в области искусственного интеллекта"
      description := "Исследователи представили новую модель ИИ, способную решать сложные задачи машинного обучения."
      url := "https://example.com/ai-news"
      source := "TechNews"
      category := "технологии"
      publishedAt := now, timestamp := now },
    { title := "Открытие в области квантовой физики"
      description := "Ученые сделали важное открытие в области квантовых вычислений."
      url := "https://example.com/quantum-news"
      source := "ScienceDaily"
      category := "наука"
      publishedAt := now, timestamp := now } ]

/-- The `data/news.json` contents handled by `_update_news`:
`{'news': ..., 'last_update': ...}`.  `lastUpdate` is in minutes. -/
structure CacheState where
  news : List Item
  lastUpdate : Option Nat
deriving Repr, DecidableEq

/-- The staleness test of `_update_news`: refresh when there is no
`last_update` or `last_update < now - 30min`, i.e. the cache is older
than 30 minutes. -/
def isStale (s : CacheState) (now : Nat) : Bool :=
  match s.lastUpdate with
  | none => true
  | some t => t + 30 < now

/-- Outcome of one `_update_news` call: the news file contents after the
call, the list returned to the caller, and whether `_fetch_news` (and so
the provider) was invoked. -/
structure UpdateResult where
  state : CacheState
  returned : List Item
  fetched : Bool
deriving Repr, DecidableEq

/-- `_update_news` of bot.py / full_webhook_bot.py: when stale, fetch,
replace the stored batch wholesale and stamp `last_update := now`;
otherwise serve the stored batch untouched.  `getCurrent()` of the spec
is the `returned` component. -/
def updateNews (s : CacheState) (now : Nat) (apiKeySet : Bool)
    (p : Provider) (nowStr : String) (test : List Item) : UpdateResult :=
  if isStale s now then
    let n := fetchNews apiKeySet p nowStr test
    { state := { news := n, lastUpdate := some now }, returned := n,
      fetched := true }
  else
    { state := s, returned := s.news, fetched := false }

/-- A default item used only as the unreachable fallback of a
guarded list access. -/
def dummyItem : Item :=
  { title := "", description := "", url := "", source := "",
    category := "", publishedAt := "", timestamp := "" }

/-- `_filter_saved_news` of simple_sync_webhook_bot.py: when the user has
a favorites entry, drop every news item whose title occurs among the
saved titles; a user absent from the favorites dict gets the list
unchanged. -/
def filterSavedNews (userFavs : Option (List Item)) (news : List Item) :
    List Item :=
  match userFavs with
  | none => news
  | some favs => news.filter (fun n => ¬ favs.any (fun f => f.title = n.title))

/-- The per-user last-news cache `self.last_news_cache` of
simple_sync_webhook_bot.py, as a map from chat id to the recorded list. -/
def ListViewCache : Type := Nat → Option (List Item)

/-- Dict assignment `self.last_news_cache[chat_id] = items`: overwrites
any prior entry for that user, leaves other users untouched. -/
def record (cache : ListViewCache) (u : Nat) (items : List Item) :
    ListViewCache :=
  fun v => if v = u then some items else cache v

/-- `handle_news_command` of simple_sync_webhook_bot.py restricted to its
state effect on the last-news cache: fetch, filter against the user's
favorites, and cache `filtered_news[:5]`; an empty fetch or an empty
filtered list leaves the cache untouched (early return). -/
def handleNewsCommand (cache : ListViewCache) (u : Nat)
    (fetched : List Item) (userFavs : Option (List Item)) : ListViewCache :=
  if fetched.isEmpty then cache
  else
    let filtered := filterSavedNews userFavs fetched
    if filtered.isEmpty then cache
    else record cache u (filtered.take 5)

/-- The index check of `handle_save_command`
(simple_sync_webhook_bot.py): `if not news_list or news_number < 1 or
news_number > len(news_list)` reports an invalid number (`none`),
otherwise the item is `news_list[news_number - 1]`. -/
def resolveIndex (l : List Item) (n : Int) : Option Item :=
  if l.isEmpty ∨ n < 1 ∨ (l.length : Int) < n then none
  else some (l.getD (n - 1).toNat dummyItem)

/-- The index check of `save_command` (bot.py): `if news_number < 1 or
news_number > len(news_list)` (no separate emptiness test; an empty
list rejects every number anyway). -/
def botResolveIndex (l : List Item) (n : Int) : Option Item :=
  if n < 1 ∨ (l.length : Int) < n then none
  else some (l.getD (n - 1).toNat dummyItem)

/-- The list-selection step of `handle_save_command`
(simple_sync_webhook_bot.py): a cached per-user list is used as is; on a
cache miss the bot calls `get_news()` (its result is the `fetched`
argument), caches `fetched[:5]` when non-empty, and resolves the index
against the full fetched list.  Returns the resolved item (or `none`
for the invalid-number message) and the updated cache. -/
def resolveSave (cache : ListViewCache) (fetched : List Item) (u : Nat)
    (n : Int) : Option Item × ListViewCache :=
  match cache u with
  | some l => (resolveIndex l n, cache)
  | none =>
    let cache' := if fetched.isEmpty then cache
                  else record cache u (fetched.take 5)
    (resolveIndex fetched n, cache')

/-- Outcome of a favorites save (§4.6 of the spec): `saved` is the
append path, `alreadyExists` the duplicate-title early return. -/
inductive SaveOutcome where
  | saved
  | alreadyExists
deriving Repr, DecidableEq

/-- The favorites update of `handle_save_command`
(simple_sync_webhook_bot.py) and `save_command` (bot.py): if an existing
favorite of the user has the same title, answer "already saved" and
leave the list alone; otherwise append the item.  (The code also stamps
a `saved_at` time on the appended dict; `Item` carries no such field and
no claim concerns it.) -/
def saveFavorite (favs : List Item) (it : Item) :
    SaveOutcome × List Item :=
  if favs.any (fun e => e.title = it.title) then (.alreadyExists, favs)
  else (.saved, favs ++ [it])

/-- `daily_command` of bot.py: `subscribers` is the stored list of
subscribed user ids; a member is removed (first occurrence, like
`list.remove`), a non-member is appended.  The returned flag is the
user-visible outcome (subscribed / unsubscribed). -/
def toggleDaily (subs : List Int) (u : Int) : SaveOutcome × List Int :=
  if u ∈ subs then (.alreadyExists, subs.erase u)
  else (.saved, subs ++ [u])

/-- The subscriber enumeration used by the broadcast drivers
(`send_daily_digest` in scheduler.py and bot.py): the stored
`subscribers` list itself. -/
def listSubscribers (subs : List Int) : List Int := subs

/-- The digest text built by `send_daily_digest` (scheduler.py, and
identically bot.py): header with the batch size, one block per item for
the first five items (description truncated to 100 characters), then a
fixed footer. -/
def composeDigest (news : List Item) : String :=
  let header :=
    "\n🌅 **Доброе утро! Ежедневный дайджест новостей**\n\n📰 Сегодня у нас "
      ++ toString news.length ++ " свежих новостей:\n\n"
  let body := String.join (((news.take 5).enumFrom 1).map (fun p =>
    "**" ++ toString p.1 ++ ". " ++ p.2.title ++ "**\n📝 "
      ++ (p.2.description.take 100) ++ "...\n🏷️ " ++ p.2.category
      ++ " | 📰 " ++ p.2.source ++ "\n🔗 [Читать далее](" ++ p.2.url
      ++ ")\n\n"))
  header ++ body
    ++ "Используйте /news для просмотра всех новостей или /favorites для избранного!"

/-- `send_daily_digest` of scheduler.py as a function from the loaded
state to the message broadcast to every subscriber: with no subscribers
or an empty stored news list the function returns early and nothing is
sent (`none`); otherwise every subscriber is sent the same composed
digest text. -/
def sendDailyDigest (subs : List Int) (news : List Item) : Option String :=
  if subs.isEmpty then none
  else if news.isEmpty then none
  else some (composeDigest news)

/-- Concrete item fixture with a given title. -/
def mkItem (t : String) : Item :=
  { title := t, description := "d", url := "https://e", source := "s",
    category := "c", publishedAt := "p", timestamp := "ts" }

/-- Concrete raw-article fixture with a given title, passing every
normalizer check. -/
def mkRaw (t : String) : RawArticle :=
  { title := some t, description := some "d", url := some "https://e",
    sourceName := "s", publishedAt := "p" }

/-- Provider whose every call raises (network failure on each query). -/
def allFailProvider : Provider :=
  { categoryResp := fun _ => .err, aggregateResp := .err }

/-- Provider whose every call succeeds with an empty article list. -/
def emptyProvider : Provider :=
  { categoryResp := fun _ => .ok [], aggregateResp := .ok [] }

/-- Provider returning the same titled article from two different
category queries (and nothing else). -/
def dupProvider : Provider :=
  { categoryResp := fun c =>
      if c = "technology" ∨ c = "science" then .ok [mkRaw "X"] else .ok []
    aggregateResp := .ok [] }

/-- The empty per-user list-view cache (no list ever recorded for any
user). -/
def emptyCache : ListViewCache := fun _ => none

end NewsBot

namespace NewsBot

/-- C1 (counterexample): with a non-empty cached batch that is stale and
a provider failing on every call, `_update_news` does NOT keep serving
the previous batch: `_fetch_news` returns the built-in sample batch and
the cache is replaced wholesale by it. -/
theorem C1_cex :
    let s : CacheState := { news := [mkItem "Старая новость"], lastUpdate := some 0 }
    let r := updateNews s 100 true allFailProvider "t" (botTestNews "t")
    s.news ≠ [] ∧ r.returned ≠ s.news ∧ r.state.news ≠ s.news := by
  refine ⟨by decide, by decide, by decide⟩

/-- C1 (amended): if every provider category call fails during a refresh
of a stale cache, the cache — whether previously empty or not — is
replaced wholesale by the fixed built-in sample batch, and `getCurrent()`
returns that sample batch, never an empty sequence. -/
theorem C1_failure_replaces_with_sample
    (s : CacheState) (now : Nat) (p : Provider) (nowStr : String)
    (test : List Item)
    (hstale : isStale s now = true)
    (hfail : ∀ c ∈ fetchCategories, (p.categoryResp c).isErr = true)
    (htest : test ≠ []) :
    (updateNews s now true p nowStr test).returned = test ∧
    (updateNews s now true p nowStr test).state.news = test ∧
    (updateNews s now true p nowStr test).returned ≠ [] := by
  have hany : fetchCategories.any (fun c => (p.categoryResp c).isErr) = true := by
    refine List.any_eq_true.mpr ?_
    exact ⟨"technology", by decide, hfail "technology" (by decide)⟩
  have hfetch : fetchNews true p nowStr test = test := by
    simp [fetchNews, hany]
  simp [updateNews, hstale, hfetch, htest]

/-- C1 (witness). -/
theorem C1_failure_replaces_with_sample_witness :
    isStale { news := [mkItem "Старая новость"], lastUpdate := some 0 } 100 = true ∧
    botTestNews "t" ≠ [] ∧
    ((updateNews { news := [mkItem "Старая новость"], lastUpdate := some 0 } 100 true
        allFailProvider "t" (botTestNews "t")).returned = botTestNews "t" ∧
      (updateNews { news := [mkItem "Старая новость"], lastUpdate := some 0 } 100 true
        allFailProvider "t" (botTestNews "t")).state.news = botTestNews "t" ∧
      (updateNews { news := [mkItem "Старая новость"], lastUpdate := some 0 } 100 true
        allFailProvider "t" (botTestNews "t")).returned ≠ []) :=
  ⟨by decide, by decide,
    C1_failure_replaces_with_sample _ 100 allFailProvider "t" _ (by decide)
      (fun c _ => rfl) (by decide)⟩

/-- C2 (counterexample): the batch stored and returned by a successful
refresh is NOT always free of duplicate identity keys: when two category
queries return the same title, both copies survive (the title-dedup
check exists only in the aggregate-merge step). -/
theorem C2_cex :
    let r := updateNews { news := [], lastUpdate := none } 0 true dupProvider
      "t" (botTestNews "t")
    r.returned.map Item.title = ["X", "X"] ∧
    ¬ (r.returned.map Item.title).Nodup := by
  refine ⟨by decide, by decide⟩

/-- C2 (amended): deduplication happens only in the aggregate-merge step
of `_fetch_news`: merging never adds an article whose title already
occurs in the accumulated batch (first occurrence kept), it preserves
the accumulated batch as an unchanged prefix, and it keeps the no-
duplicate-title invariant whenever the accumulated batch already has it;
so the scenario batch [A, B] merged with a duplicate of A yields [A, B]. -/
theorem C2_merge_dedup (now : String) (acc : List Item)
    (arts : List RawArticle)
    (h : (acc.map Item.title).Nodup) :
    ((mergeAgg acc arts now).map Item.title).Nodup ∧
    (mergeAgg acc arts now).take acc.length = acc := by
  induction arts generalizing acc with
  | nil => exact ⟨h, by simp [mergeAgg]⟩
  | cons a rest ih =>
    rw [mergeAgg]
    cases hn : normalize a "общие" now with
    | none => exact ih acc h
    | some it =>
      simp only []
      by_cases hdup : acc.any (fun e => e.title = it.title) = true
      · simp only [hdup, if_true]
        exact ih acc h
      · simp only [hdup, if_false]
        have hnotin : it.title ∉ acc.map Item.title := by
          intro hmem
          rcases List.mem_map.mp hmem with ⟨e, he, het⟩
          exact hdup (List.any_eq_true.mpr ⟨e, he, by simp [het]⟩)
        have h' : ((acc ++ [it]).map Item.title).Nodup := by
          rw [List.map_append]
          refine List.Nodup.append h (List.nodup_singleton _) ?_
          intro b hb hbmem
          have hbt : b = it.title := by simpa using hbmem
          exact hnotin (hbt ▸ hb)
        by_cases hlen : 15 ≤ (acc ++ [it]).length
        · simp only [hlen, if_true]
          exact ⟨h', List.take_left ..⟩
        · simp only [hlen, if_false]
          rcases ih (acc ++ [it]) h' with ⟨ihn, iht⟩
          refine ⟨ihn, ?_⟩
          have hle : acc.length ≤ (acc ++ [it]).length := by
            simp
          calc (mergeAgg (acc ++ [it]) rest now).take acc.length
              = ((mergeAgg (acc ++ [it]) rest now).take
                  (acc ++ [it]).length).take acc.length := by
                rw [List.take_take, Nat.min_eq_left hle]
            _ = (acc ++ [it]).take acc.length := by rw [iht]
            _ = acc := List.take_left ..

/-- C2 (witness): the concrete scenario — accumulated [A("Quantum
breakthrough"), B("AI model")] merged with a duplicate of A yields
[A, B] with no duplicate titles, first occurrences kept. -/
theorem C2_merge_dedup_witness :
    ([mkItem "Quantum breakthrough", mkItem "AI model"].map Item.title).Nodup ∧
    (((mergeAgg [mkItem "Quantum breakthrough", mkItem "AI model"]
        [mkRaw "Quantum breakthrough"] "t").map Item.title).Nodup ∧
      (mergeAgg [mkItem "Quantum breakthrough", mkItem "AI model"]
        [mkRaw "Quantum breakthrough"] "t").take 2 =
        [mkItem "Quantum breakthrough", mkItem "AI model"]) ∧
    mergeAgg [mkItem "Quantum breakthrough", mkItem "AI model"]
      [mkRaw "Quantum breakthrough"] "t" =
      [mkItem "Quantum breakthrough", mkItem "AI model"] :=
  ⟨by decide,
    C2_merge_dedup "t" [mkItem "Quantum breakthrough", mkItem "AI model"]
      [mkRaw "Quantum breakthrough"] (by decide),
    by decide⟩

/-- C3 (counterexample): with an empty provider response and an empty
cache, bot.py's `getCurrent()` returns its built-in sample batch of 6
items, not a 2-item batch. -/
theorem C3_cex :
    let r := updateNews { news := [], lastUpdate := none } 0 true
      emptyProvider "t" (botTestNews "t")
    r.returned.length = 6 ∧ r.returned.length ≠ 2 ∧ r.returned ≠ [] := by
  refine ⟨by decide, by decide, by decide⟩

/-- C3 (amended): with an empty provider response and an empty cache,
`getCurrent()` returns exactly the fixed built-in sample batch of the
running bot — the 2-item batch in full_webhook_bot.py, the 6-item batch
in bot.py — and never an empty sequence. -/
theorem C3_empty_fallback_sample :
    (updateNews { news := [], lastUpdate := none } 0 true emptyProvider "t"
        (fullTestNews "t")).returned = fullTestNews "t" ∧
    (updateNews { news := [], lastUpdate := none } 0 true emptyProvider "t"
        (fullTestNews "t")).returned.length = 2 ∧
    (updateNews { news := [], lastUpdate := none } 0 true emptyProvider "t"
        (botTestNews "t")).returned = botTestNews "t" ∧
    (updateNews { news := [], lastUpdate := none } 0 true emptyProvider "t"
        (fullTestNews "t")).returned ≠ [] := by
  refine ⟨by decide, by decide, by decide, by decide⟩

/-- C4 (counterexample): in simple_sync_webhook_bot.py a user for whom no
list was ever recorded is NOT treated as an empty list: a save command on
a cache miss fetches fresh news (here the bot's own 2-item test batch)
and resolves index 1 against it, yielding an item rather than an
IndexError. -/
theorem C4_cex :
    (resolveSave emptyCache (syncTestNews "t") 7 1).1 ≠ none ∧
    (resolveSave emptyCache (syncTestNews "t") 7 1).1 =
      some ((syncTestNews "t").getD 0 dummyItem) := by
  refine ⟨by decide, by decide⟩

/-- C4 (amended): for a user with a recorded list, any index that is 0,
negative, or greater than the stored list length resolves to IndexError
(`none`); bot.py's index check on its shared list does the same, and on
an empty list it rejects every index.  A user with no recorded list,
however, is resolved against a freshly fetched list in
simple_sync_webhook_bot.py, not against an empty one. -/
theorem C4_resolve_index_error (cache : ListViewCache)
    (fetched l : List Item) (u : Nat) (n : Int)
    (hcached : cache u = some l)
    (hn : n < 1 ∨ (l.length : Int) < n) :
    (resolveSave cache fetched u n).1 = none ∧
    botResolveIndex l n = none ∧
    botResolveIndex [] n = none := by
  have hres : resolveIndex l n = none := by
    unfold resolveIndex
    rw [if_pos (Or.inr hn)]
  refine ⟨?_, ?_, ?_⟩
  · unfold resolveSave
    rw [hcached]
    exact hres
  · unfold botResolveIndex
    rw [if_pos hn]
  · unfold botResolveIndex
    rcases Int.lt_or_le n 1 with h | h
    · rw [if_pos (Or.inl h)]
    · have h0 : (([] : List Item).length : Int) = 0 := by simp
      rw [if_pos (Or.inr (by rw [h0]; omega))]

/-- C4 (witness). -/
theorem C4_resolve_index_error_witness :
    (fun v => if v = 7 then some [mkItem "A"] else none : ListViewCache) 7 =
      some [mkItem "A"] ∧
    ((0 : Int) < 1 ∨ (([mkItem "A"].length : Int) < 0)) ∧
    ((resolveSave (fun v => if v = 7 then some [mkItem "A"] else none)
        (syncTestNews "t") 7 0).1 = none ∧
      botResolveIndex [mkItem "A"] 0 = none ∧
      botResolveIndex [] 0 = none) :=
  ⟨rfl, Or.inl (by decide),
    C4_resolve_index_error (fun v => if v = 7 then some [mkItem "A"] else none)
      (syncTestNews "t") [mkItem "A"] 7 0 rfl (Or.inl (by decide))⟩

/-- C5: saving an item whose title is not yet among the user's favorites
yields `Saved` and appends it; saving the same title again yields
`AlreadyExists` and leaves the favorites unchanged, so exactly one entry
with that identity key is stored. -/
theorem C5_save_twice (favs : List Item) (it : Item)
    (h : favs.any (fun e => e.title = it.title) = false) :
    (saveFavorite favs it).1 = .saved ∧
    (saveFavorite favs it).2 = favs ++ [it] ∧
    (saveFavorite (saveFavorite favs it).2 it).1 = .alreadyExists ∧
    (saveFavorite (saveFavorite favs it).2 it).2 = (saveFavorite favs it).2 ∧
    (saveFavorite (saveFavorite favs it).2 it).2.countP
      (fun e => e.title = it.title) = 1 := by
  have h1 : saveFavorite favs it = (.saved, favs ++ [it]) := by
    simp [saveFavorite, h]
  have hmem : (favs ++ [it]).any (fun e => e.title = it.title) = true :=
    List.any_eq_true.mpr ⟨it, by simp, by simp⟩
  have h2 : saveFavorite (favs ++ [it]) it = (.alreadyExists, favs ++ [it]) := by
    simp [saveFavorite, hmem]
  have hcount0 : favs.countP (fun e => decide (e.title = it.title)) = 0 := by
    refine List.countP_eq_zero.mpr ?_
    intro a ha
    have := List.any_eq_false.mp h a ha
    simpa using this
  refine ⟨by rw [h1], by rw [h1], by rw [h1, h2], by rw [h1, h2], ?_⟩
  rw [h1, h2]
  simp [List.countP_append, hcount0]

/-- C5 (witness): starting from an empty favorites list the final list
has length 1, not 2. -/
theorem C5_save_twice_witness :
    ([] : List Item).any (fun e => e.title = (mkItem "A").title) = false ∧
    ((saveFavorite [] (mkItem "A")).1 = .saved ∧
      (saveFavorite [] (mkItem "A")).2 = [] ++ [mkItem "A"] ∧
      (saveFavorite (saveFavorite [] (mkItem "A")).2 (mkItem "A")).1 =
        .alreadyExists ∧
      (saveFavorite (saveFavorite [] (mkItem "A")).2 (mkItem "A")).2 =
        (saveFavorite [] (mkItem "A")).2 ∧
      (saveFavorite (saveFavorite [] (mkItem "A")).2 (mkItem "A")).2.countP
        (fun e => e.title = (mkItem "A").title) = 1) ∧
    (saveFavorite (saveFavorite [] (mkItem "A")).2 (mkItem "A")).2.length = 1 :=
  ⟨by decide, C5_save_twice [] (mkItem "A") (by decide), by decide⟩

/-- C6: after a refresh at `now1`, a second `_update_news` call at any
`now2` within the 30-minute TTL performs no provider call and leaves the
stored batch and `last_update` stamp unchanged, returning the cached
batch. -/
theorem C6_ttl_cache_hit (s : CacheState) (now1 now2 : Nat)
    (k1 k2 : Bool) (p1 p2 : Provider) (t1 t2 : String)
    (test1 test2 : List Item)
    (h1 : isStale s now1 = true) (h2 : now2 ≤ now1 + 30) :
    (updateNews (updateNews s now1 k1 p1 t1 test1).state now2 k2 p2 t2
      test2).fetched = false ∧
    (updateNews (updateNews s now1 k1 p1 t1 test1).state now2 k2 p2 t2
      test2).state = (updateNews s now1 k1 p1 t1 test1).state ∧
    (updateNews (updateNews s now1 k1 p1 t1 test1).state now2 k2 p2 t2
      test2).returned = (updateNews s now1 k1 p1 t1 test1).state.news := by
  have hs1 : (updateNews s now1 k1 p1 t1 test1).state =
      { news := fetchNews k1 p1 t1 test1, lastUpdate := some now1 } := by
    simp [updateNews, h1]
  have hfresh : isStale (updateNews s now1 k1 p1 t1 test1).state now2 = false := by
    rw [hs1]
    simp [isStale]
    omega
  generalize hG : (updateNews s now1 k1 p1 t1 test1).state = st at hfresh ⊢
  simp [updateNews, hfresh]

/-- C6 (witness). -/
theorem C6_ttl_cache_hit_witness :
    isStale { news := [], lastUpdate := none } 0 = true ∧
    (25 : Nat) ≤ 0 + 30 ∧
    ((updateNews (updateNews { news := [], lastUpdate := none } 0 true
        emptyProvider "t" (botTestNews "t")).state 25 true emptyProvider "u"
        (botTestNews "u")).fetched = false ∧
      (updateNews (updateNews { news := [], lastUpdate := none } 0 true
        emptyProvider "t" (botTestNews "t")).state 25 true emptyProvider "u"
        (botTestNews "u")).state =
        (updateNews { news := [], lastUpdate := none } 0 true emptyProvider "t"
          (botTestNews "t")).state ∧
      (updateNews (updateNews { news := [], lastUpdate := none } 0 true
        emptyProvider "t" (botTestNews "t")).state 25 true emptyProvider "u"
        (botTestNews "u")).returned =
        (updateNews { news := [], lastUpdate := none } 0 true emptyProvider "t"
          (botTestNews "t")).state.news) :=
  ⟨by decide, by decide,
    C6_ttl_cache_hit { news := [], lastUpdate := none } 0 25 true true
      emptyProvider emptyProvider "t" "u" (botTestNews "t") (botTestNews "u")
      (by decide) (by decide)⟩

/-- C7: recording a fresh list for a user overwrites the prior entry:
after two `/news` interactions the save command resolves indices against
the newest recorded list (the first five filtered items), regardless of
what was recorded before. -/
theorem C7_record_overwrite (cache : ListViewCache) (u : Nat)
    (xs ys fetched : List Item) (n : Int)
    (hys : ys.isEmpty = false) :
    handleNewsCommand (handleNewsCommand cache u xs none) u ys none u =
      some (ys.take 5) ∧
    (resolveSave (handleNewsCommand (handleNewsCommand cache u xs none) u ys
      none) fetched u n).1 = resolveIndex (ys.take 5) n := by
  have hc2 : handleNewsCommand (handleNewsCommand cache u xs none) u ys none =
      record (handleNewsCommand cache u xs none) u (ys.take 5) := by
    simp [handleNewsCommand, filterSavedNews, hys]
  have hu : handleNewsCommand (handleNewsCommand cache u xs none) u ys none u =
      some (ys.take 5) := by
    rw [hc2]; simp [record]
  refine ⟨hu, ?_⟩
  simp only [resolveSave, hu]

/-- C7 (witness): the concrete scenario — after viewing [X, Y, Z],
`resolve(user, 2)` gives Y; after a fresh list [P, Q] is recorded for
the same user, `resolve(user, 2)` gives Q, not Y. -/
theorem C7_record_overwrite_witness :
    ([mkItem "P", mkItem "Q"] : List Item).isEmpty = false ∧
    (resolveSave (handleNewsCommand emptyCache 1
      [mkItem "X", mkItem "Y", mkItem "Z"] none) [] 1 2).1 =
      some (mkItem "Y") ∧
    (handleNewsCommand (handleNewsCommand emptyCache 1
        [mkItem "X", mkItem "Y", mkItem "Z"] none) 1
        [mkItem "P", mkItem "Q"] none 1 =
        some ([mkItem "P", mkItem "Q"].take 5) ∧
      (resolveSave (handleNewsCommand (handleNewsCommand emptyCache 1
        [mkItem "X", mkItem "Y", mkItem "Z"] none) 1
        [mkItem "P", mkItem "Q"] none) [] 1 2).1 =
        resolveIndex ([mkItem "P", mkItem "Q"].take 5) 2) ∧
    resolveIndex ([mkItem "P", mkItem "Q"].take 5) 2 = some (mkItem "Q") ∧
    mkItem "Q" ≠ mkItem "Y" :=
  ⟨by decide, by decide,
    C7_record_overwrite emptyCache 1 [mkItem "X", mkItem "Y", mkItem "Z"]
      [mkItem "P", mkItem "Q"] [] 2 (by decide),
    by decide, by decide⟩

/-- C8: with a duplicate-free subscribers list, toggling a user's
subscription twice restores every user's original membership; one toggle
flips exactly the toggled user's membership reported by
`listSubscribers` and leaves all other users as they were, and it
answers "subscribed" exactly when the user was not subscribed. -/
theorem C8_toggle_twice (subs : List Int) (u v : Int) (h : subs.Nodup) :
    (v ∈ (toggleDaily (toggleDaily subs u).2 u).2 ↔ v ∈ listSubscribers subs) ∧
    (v ∈ listSubscribers (toggleDaily subs u).2 ↔
      (if v = u then u ∉ subs else v ∈ subs)) ∧
    ((toggleDaily subs u).1 = SaveOutcome.saved ↔ u ∉ subs) := by
  by_cases hu : u ∈ subs
  · have hne : u ∉ subs.erase u := fun hc => (h.mem_erase_iff.mp hc).1 rfl
    have e1 : (toggleDaily subs u).2 = subs.erase u := by
      simp [toggleDaily, hu]
    have e1o : (toggleDaily subs u).1 = SaveOutcome.alreadyExists := by
      simp [toggleDaily, hu]
    have e2 : (toggleDaily (subs.erase u) u).2 = subs.erase u ++ [u] := by
      simp [toggleDaily, hne]
    refine ⟨?_, ?_, by rw [e1o]; simp [hu]⟩
    · rw [e1, e2]
      simp only [listSubscribers, List.mem_append, h.mem_erase_iff,
        List.mem_singleton]
      constructor
      · rintro (⟨_, hv⟩ | rfl)
        · exact hv
        · exact hu
      · intro hv
        by_cases hvu : v = u
        · exact Or.inr hvu
        · exact Or.inl ⟨hvu, hv⟩
    · rw [e1]
      simp only [listSubscribers, h.mem_erase_iff]
      by_cases hvu : v = u
      · subst hvu; simp [hu]
      · simp [hvu]
  · have e1 : (toggleDaily subs u).2 = subs ++ [u] := by
      simp [toggleDaily, hu]
    have e1o : (toggleDaily subs u).1 = SaveOutcome.saved := by
      simp [toggleDaily, hu]
    have hmem : u ∈ subs ++ [u] := by simp
    have herase : (subs ++ [u]).erase u = subs := by
      rw [List.erase_append_right _ hu, List.erase_cons_head]
      simp
    have e2 : (toggleDaily (subs ++ [u]) u).2 = subs := by
      simp [toggleDaily, hmem, herase]
    refine ⟨?_, ?_, by rw [e1o]; simp [hu]⟩
    · rw [e1, e2]
      simp [listSubscribers]
    · rw [e1]
      simp only [listSubscribers, List.mem_append, List.mem_singleton]
      by_cases hvu : v = u
      · subst hvu; simp [hu]
      · simp [hvu]

/-- C8 (witness). -/
theorem C8_toggle_twice_witness :
    ([3, 5] : List Int).Nodup ∧
    ((3 ∈ (toggleDaily (toggleDaily [3, 5] 5).2 5).2 ↔
        3 ∈ listSubscribers [3, 5]) ∧
      (3 ∈ listSubscribers (toggleDaily [3, 5] 5).2 ↔
        (if (3 : Int) = 5 then (5 : Int) ∉ [3, 5] else (3 : Int) ∈ [3, 5])) ∧
      ((toggleDaily [3, 5] 5).1 = SaveOutcome.saved ↔ (5 : Int) ∉ [3, 5])) :=
  ⟨by decide, C8_toggle_twice [3, 5] 5 3 (by decide)⟩

/-- The composed digest text is never the empty string (its fixed footer
alone is non-empty). -/
theorem composeDigest_length_pos (news : List Item) :
    0 < (composeDigest news).length := by
  unfold composeDigest
  simp only [String.length_append]
  have h : 0 <
      ("Используйте /news для просмотра всех новостей или /favorites для избранного!").length := by
    decide
  omega

/-- C9 (counterexample): with subscribers present and an empty stored
news list, `send_daily_digest` returns early and sends nothing at all —
no "no news" variant text is produced. -/
theorem C9_cex : sendDailyDigest [1] [] = none := rfl

/-- C9 (amended): the digest step is a pure function of the stored
batch; whenever a digest is actually sent it is the deterministic
composition of a non-empty item list and is never the blank string; on
an empty item list nothing is sent at all (early return) rather than a
"no news" variant, so a blank digest is never sent to subscribers. -/
theorem C9_digest_never_blank (subs : List Int) (news : List Item)
    (d : String) (h : sendDailyDigest subs news = some d) :
    news ≠ [] ∧ d = composeDigest news ∧ d ≠ "" := by
  unfold sendDailyDigest at h
  by_cases hs : subs.isEmpty
  · rw [if_pos hs] at h
    exact absurd h (by simp)
  · rw [if_neg hs] at h
    by_cases hn : news.isEmpty
    · rw [if_pos hn] at h
      exact absurd h (by simp)
    · rw [if_neg hn] at h
      have hd : d = composeDigest news := by
        injection h with h'
        exact h'.symm
      refine ⟨by simpa using hn, hd, ?_⟩
      rw [hd]
      intro hc
      have hp := composeDigest_length_pos news
      rw [hc] at hp
      simp at hp

/-- C9 (witness). -/
theorem C9_digest_never_blank_witness :
    sendDailyDigest [1] (syncTestNews "t") =
      some (composeDigest (syncTestNews "t")) ∧
    (syncTestNews "t" ≠ [] ∧
      composeDigest (syncTestNews "t") = composeDigest (syncTestNews "t") ∧
      composeDigest (syncTestNews "t") ≠ "") :=
  ⟨rfl, C9_digest_never_blank [1] (syncTestNews "t")
    (composeDigest (syncTestNews "t")) rfl⟩

/-- C10: every item of the list shown to and recorded for a user by the
news command has a title absent from that user's favorites at request
time; the shown list is an order-preserving subsequence of the fetched
batch of length at most 5, and the handler either leaves the user's
list-view cache untouched or records exactly that shown list. -/
theorem C10_shown_filtered (fetched favs : List Item)
    (cache : ListViewCache) (u : Nat) (it : Item)
    (hit : it ∈ (filterSavedNews (some favs) fetched).take 5) :
    favs.any (fun f => f.title = it.title) = false ∧
    List.Sublist ((filterSavedNews (some favs) fetched).take 5) fetched ∧
    ((filterSavedNews (some favs) fetched).take 5).length ≤ 5 ∧
    (handleNewsCommand cache u fetched (some favs) = cache ∨
      handleNewsCommand cache u fetched (some favs) =
        record cache u ((filterSavedNews (some favs) fetched).take 5)) := by
  have hmemf : it ∈ filterSavedNews (some favs) fetched :=
    List.take_subset _ _ hit
  have hfalse : favs.any (fun f => f.title = it.title) = false := by
    have hp := List.of_mem_filter (show it ∈ List.filter _ fetched from hmemf)
    simpa using hp
  have hsub :
      List.Sublist ((filterSavedNews (some favs) fetched).take 5) fetched := by
    refine (List.take_sublist _ _).trans ?_
    show List.Sublist (List.filter _ fetched) fetched
    exact List.filter_sublist _
  refine ⟨hfalse, hsub, List.length_take_le _ _, ?_⟩
  by_cases hf : fetched.isEmpty
  · left
    simp [handleNewsCommand, hf]
  · by_cases hfe : (filterSavedNews (some favs) fetched).isEmpty
    · left
      simp [handleNewsCommand, hf, hfe]
    · right
      simp [handleNewsCommand, hf, hfe]

/-- C10 (witness): with favorites containing B, the shown list for
fetched [A, B] is [A]. -/
theorem C10_shown_filtered_witness :
    mkItem "A" ∈ (filterSavedNews (some [mkItem "B"])
      [mkItem "A", mkItem "B"]).take 5 ∧
    ([mkItem "B"].any (fun f => f.title = (mkItem "A").title) = false ∧
      List.Sublist ((filterSavedNews (some [mkItem "B"])
        [mkItem "A", mkItem "B"]).take 5) [mkItem "A", mkItem "B"] ∧
      ((filterSavedNews (some [mkItem "B"])
        [mkItem "A", mkItem "B"]).take 5).length ≤ 5 ∧
      (handleNewsCommand emptyCache 1 [mkItem "A", mkItem "B"]
          (some [mkItem "B"]) = emptyCache ∨
        handleNewsCommand emptyCache 1 [mkItem "A", mkItem "B"]
          (some [mkItem "B"]) =
          record emptyCache 1 ((filterSavedNews (some [mkItem "B"])
            [mkItem "A", mkItem "B"]).take 5))) :=
  ⟨by decide, C10_shown_filtered [mkItem "A", mkItem "B"] [mkItem "B"]
    emptyCache 1 (mkItem "A") (by decide)⟩

end NewsBot
